import Mathlib

/-!
Shallow embedding of `otu_proj/data_proc.py` (the OTU abundance pipeline):
the all-zero-column filter, the row-label classification into the four
experimental groups, the per-group mean / standard-deviation aggregation of
`data_process_analysis`, and a model of the I/O-error path of
`parse_cmdline` / `main`.

Numeric cells are modelled as exact rationals in place of pandas floats.
Where the Python code computes a standard deviation (`x.std`), the
development tracks its square (the variance), which keeps everything in ℚ
and determines the standard deviation uniquely, square roots being unique
on nonnegative values.  pandas' NaN results (empty mean, std of fewer than
two values) correspond to the division-by-zero convention `q / 0 = 0` of ℚ;
all claims about those quantities carry non-emptiness hypotheses that keep
the NaN cases out of scope.
-/

namespace OtuProj

/-- One of the four experimental groups of `data_process_analysis`. -/
inductive Group : Type
  | control
  | low
  | medium
  | high
deriving DecidableEq, Repr, Fintype

/-- One row of the abundance table: sample label plus its numeric cells. -/
abbrev Row : Type := String × List ℚ

/-- Abundance table: labelled rows plus the column (taxon) names. -/
structure Table : Type where
  rows : List Row
  cols : List String
deriving DecidableEq, Repr

/-- Contiguous-substring test on character lists: `nd` occurs somewhere in
the second list. -/
def infixCheck (nd : List Char) : List Char → Bool
  | [] => nd.isEmpty
  | c :: cs => nd.isPrefixOf (c :: cs) || infixCheck nd cs

/-- Python's `needle in hay` on strings: case-sensitive substring test. -/
def substrIn (needle hay : String) : Bool := infixCheck needle.toList hay.toList

/-- data_proc.py line 66: a column is kept iff some row is non-zero there
(`(data_frame != 0).any(axis=0)`). -/
def colKept (t : Table) (j : Nat) : Bool := t.rows.any fun r => r.2.getD j 0 != 0

/-- Indices of the columns kept by the all-zero-column filter. -/
def keptIdx (t : Table) : List Nat := (List.range t.cols.length).filter (colKept t)

/-- Line 66: `data_frame = data_frame.loc[:, (data_frame != 0).any(axis=0)]`. -/
def filterCols (t : Table) : Table where
  rows := t.rows.map fun r => (r.1, (keptIdx t).map fun j => r.2.getD j 0)
  cols := (keptIdx t).map fun j => t.cols.getD j ""

/-- Lines 73-80: the if/elif chain classifying one row label. -/
def classify (lbl : String) : Option Group :=
  if substrIn "control" lbl then some .control
  else if substrIn "low" lbl && substrIn "treated" lbl then some .low
  else if substrIn "medium" lbl && substrIn "treated" lbl then some .medium
  else if substrIn "high" lbl && substrIn "treated" lbl then some .high
  else none

/-- Lines 71-81: the nested row/column loop appends the row label to the
matching group's list once per table cell; `set(...)` on line 81 later
deduplicates, so only membership in this list matters. -/
def groupVals (t : Table) (g : Group) : List String :=
  t.rows.flatMap fun r => t.cols.flatMap fun _ => if classify r.1 = some g then [r.1] else []

/-- Membership in the deduplicated group set of line 81. -/
def inGroup (t : Table) (g : Group) (lbl : String) : Bool :=
  (groupVals t g).contains lbl

/-- Line 92: `x = data_frame.loc[groups[label]]` — the rows whose label lies
in the group's set.  The real code visits them in Python-set iteration
order; the embedding keeps table order, and the reductions applied to them
are proved order-invariant (see the determinism theorem for C9). -/
def subRows (t : Table) (g : Group) : List Row := t.rows.filter fun r => inGroup t g r.1

/-- Column `j` of a list of rows. -/
def colOf (rs : List Row) (j : Nat) : List ℚ := rs.map fun r => r.2.getD j 0

/-- pandas `mean` of a list of values: sum over count. -/
def listMean (xs : List ℚ) : ℚ := xs.sum / xs.length

/-- Square of pandas `std` (default ddof=1) of a list of values: the sample
variance, sum of squared deviations over `n - 1`. -/
def var1 (xs : List ℚ) : ℚ :=
  (xs.map fun x => (x - listMean xs) ^ 2).sum / ((xs.length : ℚ) - 1)

/-- Square of the population (ddof=0) standard deviation: sum of squared
deviations over `n`.  Not used by the code; used to state what the code's
SD row turns out to equal. -/
def var0 (xs : List ℚ) : ℚ :=
  (xs.map fun x => (x - listMean xs) ^ 2).sum / (xs.length : ℚ)

/-- Line 93: `x.mean(axis=0)`, one value per retained column. -/
def meanRow (rs : List Row) (ncols : Nat) : List ℚ :=
  (List.range ncols).map fun j => listMean (colOf rs j)

/-- Line 93: `x.loc['Mean'] = x.mean(axis=0)` enlarges `x` with the Mean row. -/
def withMean (rs : List Row) (ncols : Nat) : List Row :=
  rs ++ [("Mean", meanRow rs ncols)]

/-- Line 94: `x.loc['SD'] = x.std(axis=0)` — computed on `x` AFTER the Mean
row was appended on line 93, so the reduction runs over the group rows plus
the synthetic Mean row.  Squared to stay in ℚ. -/
def sdSqRow (rs : List Row) (ncols : Nat) : List ℚ :=
  (List.range ncols).map fun j => var1 (colOf (withMean rs ncols) j)

/-- Lines 81-82: the fixed iteration order of the `groups` dict. -/
def groupsList : List Group := [.control, .low, .medium, .high]

/-- Lines 66-97: the numeric core of `data_process_analysis`.  Returns the
`means_df` and `sd_df` tables as association lists keyed by group, one value
per retained column (SD values squared, see `sdSqRow`).  The Excel-writing
side effects are not modelled. -/
def data_process_analysis (t : Table) :
    List (Group × List ℚ) × List (Group × List ℚ) :=
  let d := filterCols t
  let n := d.cols.length
  (groupsList.map fun g => (g, meanRow (subRows d g) n),
   groupsList.map fun g => (g, sdSqRow (subRows d g) n))

/-- Association lookup in the means/sd result tables. -/
def lookupG : List (Group × List ℚ) → Group → Option (List ℚ)
  | [], _ => none
  | e :: es, g => if e.1 = g then some e.2 else lookupG es g

/-- The table of the spec's §8 scenario: rows control_1, control_2,
low_treated_1, high_treated_1 with two taxa columns. -/
def scenarioTable : Table where
  rows := [("control_1", [5, 10]), ("control_2", [7, 8]),
           ("low_treated_1", [2, 4]), ("high_treated_1", [9, 1])]
  cols := ["taxonA", "taxonB"]

/-- A table in which every one of the four groups has a matching sample. -/
def fullTable : Table where
  rows := [("control_1", [1]), ("low_treated_1", [2]),
           ("medium_treated_1", [3]), ("high_treated_1", [4])]
  cols := ["taxonA"]

/-- A table whose first column is zero in every sample. -/
def zeroColTable : Table where
  rows := [("control_1", [0, 3]), ("low_treated_1", [0, 4])]
  cols := ["zeroTaxon", "liveTaxon"]

/-- A table in which every column is all-zero, so the filtered table has no
columns at all. -/
def noColsTable : Table where
  rows := [("control_1", [0]), ("low_treated_1", [0])]
  cols := ["zeroTaxon"]

/-- Exit code on success (line 31). -/
def SUCCESS : Nat := 0

/-- Exit code when the input file cannot be read (line 32). -/
def IO_ERROR : Nat := 2

/-- Modelled I/O world: what `pd.read_excel` yields for each path, `none`
when opening the file raises `IOError`. -/
abbrev FileSys := String → Option Table

/-- Lines 154-163 of `parse_cmdline`: reading the input file inside the
`try` block.  On failure the `except IOError` branch calls
`warning("Problems reading file:", e)`, whose message carries the offending
path (the repository's test asserts the path appears on stderr), prints
usage help and returns `IO_ERROR`; on success it returns the table and
`SUCCESS`.  Components: parsed table, return code, stderr diagnostic. -/
def parse_cmdline (fs : FileSys) (path : String) :
    Option Table × Nat × Option String :=
  match fs path with
  | some t => (some t, SUCCESS, none)
  | none => (none, IO_ERROR, some ("WARNING:  Problems reading file: " ++ path))

/-- Lines 166-174 of `main`: abort with the error code before any
aggregation happens when `parse_cmdline` failed, otherwise run
`data_process_analysis`.  Components: exit code, produced aggregate output
(`none` when nothing was produced), stderr diagnostic. -/
def main (fs : FileSys) (path : String) :
    Nat × Option (List (Group × List ℚ) × List (Group × List ℚ)) × Option String :=
  match parse_cmdline fs path with
  | (tbl, ret, diag) =>
    if ret ≠ SUCCESS then (ret, none, diag)
    else
      match tbl with
      | some t => (SUCCESS, some (data_process_analysis t), diag)
      | none => (SUCCESS, none, diag)

/-- A label lies in a group's accumulated list iff the table has at least
one column, the label classifies to that group, and it is one of the
table's row labels. -/
theorem mem_groupVals {t : Table} {g : Group} {lbl : String} :
    lbl ∈ groupVals t g ↔
      t.cols ≠ [] ∧ classify lbl = some g ∧ lbl ∈ t.rows.map Prod.fst := by
  constructor
  · intro h
    rcases List.mem_flatMap.1 h with ⟨r, hr, hc⟩
    rcases List.mem_flatMap.1 hc with ⟨c, hcmem, hif⟩
    by_cases hcl : classify r.1 = some g
    · simp only [hcl, if_pos] at hif
      rcases List.mem_singleton.1 hif with rfl
      exact ⟨List.ne_nil_of_mem hcmem, hcl, List.mem_map.2 ⟨r, hr, rfl⟩⟩
    · simp [hcl] at hif
  · rintro ⟨hcols, hcl, hmem⟩
    rcases List.mem_map.1 hmem with ⟨r, hr, rfl⟩
    rcases List.exists_mem_of_ne_nil t.cols hcols with ⟨c, hc⟩
    exact List.mem_flatMap.2 ⟨r, hr, List.mem_flatMap.2 ⟨c, hc, by simp [hcl]⟩⟩

/-- `inGroup` decides membership in the group's accumulated list. -/
theorem inGroup_iff {t : Table} {g : Group} {lbl : String} :
    inGroup t g lbl = true ↔ lbl ∈ groupVals t g := by
  simp [inGroup]

/-- The column filter leaves the row labels unchanged. -/
theorem filterCols_labels (t : Table) :
    (filterCols t).rows.map Prod.fst = t.rows.map Prod.fst := by
  simp [filterCols, List.map_map, Function.comp]

/-- Looking up a group in a table built over `groupsList` yields its entry. -/
theorem lookupG_groupsList_map (f : Group → List ℚ) (g : Group) :
    lookupG (groupsList.map fun h => (h, f h)) g = some (f g) := by
  cases g <;> simp [groupsList, lookupG]

/-- On a table with at least one column, the rows selected for a group are
exactly the rows whose label classifies to that group. -/
theorem subRows_eq_classify_filter (t : Table) (g : Group) (h : t.cols ≠ []) :
    subRows t g = t.rows.filter fun r => classify r.1 = some g := by
  unfold subRows
  apply List.filter_congr
  intro r hr
  have hmem : r.1 ∈ t.rows.map Prod.fst := List.mem_map.2 ⟨r, hr, rfl⟩
  by_cases hc : classify r.1 = some g
  · have hin : inGroup t g r.1 = true := inGroup_iff.2 (mem_groupVals.2 ⟨h, hc, hmem⟩)
    simp [hin, hc]
  · have hin : inGroup t g r.1 = false := by
      rw [Bool.eq_false_iff]
      intro hcon
      exact hc (mem_groupVals.1 (inGroup_iff.1 (by simpa using hcon))).2.1
    simp [hin, hc]

/-- The mean of a list is invariant under permutation. -/
theorem listMean_perm {xs ys : List ℚ} (h : xs.Perm ys) : listMean xs = listMean ys := by
  simp [listMean, h.sum_eq, h.length_eq]

/-- The sample variance of a list is invariant under permutation. -/
theorem var1_perm {xs ys : List ℚ} (h : xs.Perm ys) : var1 xs = var1 ys := by
  unfold var1
  rw [listMean_perm h, h.length_eq, (h.map fun x => (x - listMean ys) ^ 2).sum_eq]

/-- Permuting rows permutes every column. -/
theorem colOf_perm {rs rs' : List Row} (h : rs.Perm rs') (j : Nat) :
    (colOf rs j).Perm (colOf rs' j) := h.map _

/-- The Mean row does not depend on the order of the selected rows. -/
theorem meanRow_perm {rs rs' : List Row} (h : rs.Perm rs') (n : Nat) :
    meanRow rs n = meanRow rs' n := by
  unfold meanRow
  exact List.map_congr_left fun j _ => listMean_perm (colOf_perm h j)

/-- Appending the Mean row preserves permutation of the selected rows. -/
theorem withMean_perm {rs rs' : List Row} (h : rs.Perm rs') (n : Nat) :
    (withMean rs n).Perm (withMean rs' n) := by
  unfold withMean
  rw [meanRow_perm h n]
  exact h.append_right _

/-- The SD row does not depend on the order of the selected rows. -/
theorem sdSqRow_perm {rs rs' : List Row} (h : rs.Perm rs') (n : Nat) :
    sdSqRow rs n = sdSqRow rs' n := by
  unfold sdSqRow
  exact List.map_congr_left fun j _ => var1_perm (colOf_perm (withMean_perm h n) j)

/-- A list is a prefix of itself. -/
theorem isPrefixOf_self (l : List Char) : l.isPrefixOf l = true := by
  induction l with
  | nil => rfl
  | cons a as ih => simp [List.isPrefixOf, ih]

/-- A list occurs as a substring at the end of any extension of itself. -/
theorem infixCheck_append_self (nd pre : List Char) :
    infixCheck nd (pre ++ nd) = true := by
  induction pre with
  | nil =>
    cases nd with
    | nil => rfl
    | cons c cs => simp [infixCheck, isPrefixOf_self]
  | cons a as ih => simp [infixCheck, ih]

/-- A string occurs as a substring of any string obtained by prepending to it. -/
theorem substrIn_append_self (s pre : String) : substrIn s (pre ++ s) = true := by
  unfold substrIn
  have h : (pre ++ s).toList = pre.toList ++ s.toList := by
    simp [String.toList]
  rw [h]
  exact infixCheck_append_self _ _

/-- Appending the mean of a non-empty list to it does not change the mean. -/
theorem listMean_append_mean {xs : List ℚ} (h : xs ≠ []) :
    listMean (xs ++ [listMean xs]) = listMean xs := by
  have hn : (xs.length : ℚ) ≠ 0 := by
    simpa using List.length_pos.2 h |>.ne'
  unfold listMean
  rw [List.sum_append, List.length_append]
  simp only [List.sum_cons, List.sum_nil, List.length_singleton]
  push_cast
  field_simp
  ring

/-- What lines 93-94 actually compute: the ddof=1 variance of the group
rows with their mean appended equals the ddof=0 (population) variance of
the group rows alone.  This identity is the precise content of the SD bug
behind claims C1 and C6. -/
theorem var1_withMean_eq_var0 {xs : List ℚ} (h : xs ≠ []) :
    var1 (xs ++ [listMean xs]) = var0 xs := by
  unfold var1 var0
  rw [listMean_append_mean h, List.map_append, List.sum_append, List.length_append]
  simp only [List.map_cons, List.map_nil, List.sum_cons, List.sum_nil,
    List.length_singleton, sub_self]
  push_cast
  rw [add_sub_cancel_right]
  norm_num

/-- Claim C1 (code_bug evidence): on the spec's own scenario table, the SD
row the code produces for the control group is [1, 1] (squared values, i.e.
standard deviation [1, 1]), whereas the ddof=1 sample variance of exactly
the control rows is [2, 2] (standard deviation [√2, √2] ≈ [1.414, 1.414]):
line 94 computes the std only after line 93 appended the Mean row to `x`. -/
theorem sd_row_differs_from_sample_sd :
    lookupG (data_process_analysis scenarioTable).2 Group.control = some [1, 1] ∧
    var1 (colOf (subRows (filterCols scenarioTable) Group.control) 0) = 2 ∧
    var1 (colOf (subRows (filterCols scenarioTable) Group.control) 1) = 2 ∧
    (1 : ℚ) ≠ 2 := by
  have hsub : subRows (filterCols scenarioTable) Group.control =
      [("control_1", [5, 10]), ("control_2", [7, 8])] := by decide
  have hlen : (filterCols scenarioTable).cols.length = 2 := by decide
  refine ⟨?_, ?_, ?_, by norm_num⟩
  · unfold data_process_analysis
    rw [lookupG_groupsList_map, hsub, hlen]
    norm_num [sdSqRow, withMean, meanRow, colOf, listMean, var1, List.range_succ]
  · rw [hsub]
    norm_num [var1, colOf, listMean]
  · rw [hsub]
    norm_num [var1, colOf, listMean]

/-- Claim C2: for a group with a non-empty set of matching rows, the Mean
row produced by the aggregation equals, per retained column, the arithmetic
mean (sum over count) of exactly that group's rows. -/
theorem means_row_is_group_mean (t : Table) (g : Group)
    (hne : (filterCols t).rows.filter (fun r => classify r.1 = some g) ≠ []) :
    lookupG (data_process_analysis t).1 g =
      some ((List.range (filterCols t).cols.length).map fun j =>
        ((((filterCols t).rows.filter fun r => classify r.1 = some g).map
            fun r => r.2.getD j 0).sum) /
        (((filterCols t).rows.filter fun r => classify r.1 = some g).length)) := by
  unfold data_process_analysis
  rw [lookupG_groupsList_map]
  congr 1
  by_cases hcols : (filterCols t).cols = []
  · simp [hcols, meanRow]
  · rw [meanRow, subRows_eq_classify_filter _ _ hcols]
    apply List.map_congr_left
    intro j hj
    simp [listMean, colOf]

/-- Witness for C2 at the scenario table's control group. -/
theorem means_row_is_group_mean_witness :
    lookupG (data_process_analysis scenarioTable).1 Group.control =
      some ((List.range (filterCols scenarioTable).cols.length).map fun j =>
        ((((filterCols scenarioTable).rows.filter
              fun r => classify r.1 = some Group.control).map
            fun r => r.2.getD j 0).sum) /
        (((filterCols scenarioTable).rows.filter
            fun r => classify r.1 = some Group.control).length)) :=
  means_row_is_group_mean scenarioTable Group.control (by decide)

/-- Claim C3: classification is by case-sensitive substring rules evaluated
in the fixed order control, low, medium, high with first-match-wins
semantics — control needs "control", the treatment groups need their word
and "treated" and every earlier rule to have failed — and a label matching
no rule belongs to no group. -/
theorem classify_first_match_wins (lbl : String) :
    (classify lbl = some .control ↔ substrIn "control" lbl = true) ∧
    (classify lbl = some .low ↔
      substrIn "control" lbl = false ∧ substrIn "low" lbl = true ∧
      substrIn "treated" lbl = true) ∧
    (classify lbl = some .medium ↔
      substrIn "control" lbl = false ∧ substrIn "low" lbl = false ∧
      substrIn "medium" lbl = true ∧ substrIn "treated" lbl = true) ∧
    (classify lbl = some .high ↔
      substrIn "control" lbl = false ∧ substrIn "low" lbl = false ∧
      substrIn "medium" lbl = false ∧ substrIn "high" lbl = true ∧
      substrIn "treated" lbl = true) ∧
    (classify lbl = none ↔
      substrIn "control" lbl = false ∧
      (substrIn "low" lbl = false ∨ substrIn "treated" lbl = false) ∧
      (substrIn "medium" lbl = false ∨ substrIn "treated" lbl = false) ∧
      (substrIn "high" lbl = false ∨ substrIn "treated" lbl = false)) ∧
    (∀ t g, classify lbl = none → lbl ∉ groupVals t g) := by
  have h6 : ∀ t g, classify lbl = none → lbl ∉ groupVals t g := by
    intro t g hnone hmem
    have hcl := (mem_groupVals.1 hmem).2.1
    rw [hnone] at hcl
    exact Option.noConfusion hcl
  refine ⟨?_, ?_, ?_, ?_, ?_, h6⟩ <;>
  · unfold classify
    cases h1 : substrIn "control" lbl <;> cases h2 : substrIn "low" lbl <;>
      cases h3 : substrIn "medium" lbl <;> cases h4 : substrIn "high" lbl <;>
      cases h5 : substrIn "treated" lbl <;> simp_all

/-- Witness for C3: an unmatched label is excluded from every group. -/
theorem classify_first_match_wins_witness :
    "sample_7" ∉ groupVals scenarioTable Group.control :=
  (classify_first_match_wins "sample_7").2.2.2.2.2 scenarioTable Group.control
    (by decide)

/-- Claim C4: the four group sets computed on the filtered table are
pairwise disjoint, and each is a subset of the input table's row labels. -/
theorem groups_disjoint_and_subset (t : Table) (g g' : Group) (hgg : g ≠ g')
    (lbl : String) :
    (lbl ∈ groupVals (filterCols t) g → lbl ∉ groupVals (filterCols t) g') ∧
    (lbl ∈ groupVals (filterCols t) g → lbl ∈ t.rows.map Prod.fst) := by
  constructor
  · intro hg hg'
    have h1 := (mem_groupVals.1 hg).2.1
    have h2 := (mem_groupVals.1 hg').2.1
    rw [h1] at h2
    exact hgg (Option.some.inj h2)
  · intro hg
    have h := (mem_groupVals.1 hg).2.2
    rwa [filterCols_labels] at h

/-- Witness for C4 at the scenario table: control_1 is not in the low group
and is one of the table's row labels. -/
theorem groups_disjoint_and_subset_witness :
    ("control_1" ∉ groupVals (filterCols scenarioTable) Group.low) ∧
    ("control_1" ∈ scenarioTable.rows.map Prod.fst) :=
  ⟨(groups_disjoint_and_subset scenarioTable Group.control Group.low
      (by decide) "control_1").1 (by decide),
   (groups_disjoint_and_subset scenarioTable Group.control Group.low
      (by decide) "control_1").2 (by decide)⟩

/-- Claim C5: a column index survives the filter iff some sample is
non-zero there (so all-zero columns are removed and the rest kept); the
filtered table, whose rows feed the grouping and whose columns head every
output sheet, carries exactly the kept columns, and the per-group subset
rows as well as the Mean/SD result rows all have exactly one entry per kept
column. -/
theorem zero_columns_dropped (t : Table) (j : Nat) :
    (j ∈ keptIdx t ↔ j < t.cols.length ∧ ∃ r ∈ t.rows, r.2.getD j 0 ≠ 0) ∧
    ((filterCols t).cols = (keptIdx t).map fun i => t.cols.getD i "") ∧
    (∀ r ∈ (filterCols t).rows, r.2.length = (keptIdx t).length) ∧
    (∀ g r, r ∈ subRows (filterCols t) g → r ∈ (filterCols t).rows) ∧
    (∀ g, (meanRow (subRows (filterCols t) g) (filterCols t).cols.length).length =
        (keptIdx t).length ∧
      (sdSqRow (subRows (filterCols t) g) (filterCols t).cols.length).length =
        (keptIdx t).length) := by
  refine ⟨?_, rfl, ?_, ?_, ?_⟩
  · simp [keptIdx, colKept, List.mem_filter]
  · intro r hr
    rcases List.mem_map.1 hr with ⟨r₀, _, rfl⟩
    simp
  · intro g r hr
    exact List.mem_of_mem_filter hr
  · intro g
    constructor <;> simp [meanRow, sdSqRow, filterCols]

/-- Witness for C5 on a table with an all-zero first column: the non-zero
column is kept and the all-zero column is dropped. -/
theorem zero_columns_dropped_witness :
    (1 ∈ keptIdx zeroColTable) ∧ ((0 : Nat) ∉ keptIdx zeroColTable) :=
  ⟨(zero_columns_dropped zeroColTable 1).1.mpr (by decide),
   fun h => by
     have h2 := (zero_columns_dropped zeroColTable 0).1.mp h
     revert h2
     decide⟩

/-- Claim C6 (code_bug evidence): on the scenario table the means match the
spec (control [6, 9], low its single row [2, 4], high its single row
[9, 1]) and single-sample groups get SD 0, but the control SD row is
[1, 1] — its square 1 is neither 1.414² nor the sample variance 2 the spec
requires. -/
theorem scenario_aggregate_values :
    lookupG (data_process_analysis scenarioTable).1 Group.control = some [6, 9] ∧
    lookupG (data_process_analysis scenarioTable).1 Group.low = some [2, 4] ∧
    lookupG (data_process_analysis scenarioTable).1 Group.high = some [9, 1] ∧
    lookupG (data_process_analysis scenarioTable).2 Group.low = some [0, 0] ∧
    lookupG (data_process_analysis scenarioTable).2 Group.high = some [0, 0] ∧
    lookupG (data_process_analysis scenarioTable).2 Group.control = some [1, 1] ∧
    ((1414 / 1000 : ℚ) ^ 2 ≠ 1 ∧ (2 : ℚ) ≠ 1) := by
  have hc : subRows (filterCols scenarioTable) Group.control =
      [("control_1", [5, 10]), ("control_2", [7, 8])] := by decide
  have hl : subRows (filterCols scenarioTable) Group.low =
      [("low_treated_1", [2, 4])] := by decide
  have hh : subRows (filterCols scenarioTable) Group.high =
      [("high_treated_1", [9, 1])] := by decide
  have hlen : (filterCols scenarioTable).cols.length = 2 := by decide
  refine ⟨?_, ?_, ?_, ?_, ?_, ?_, by norm_num, by norm_num⟩ <;>
  · unfold data_process_analysis
    rw [lookupG_groupsList_map, hlen]
    first
      | rw [hc] | rw [hl] | rw [hh]
    norm_num [meanRow, sdSqRow, withMean, colOf, listMean, var1, List.range_succ]

/-- Claim C7: when every group has a matching sample, the aggregation
returns two tables, each with exactly four rows keyed control, low, medium,
high in order, and each row carrying exactly one value per retained column. -/
theorem aggregate_result_shape (t : Table)
    (hall : ∀ g, subRows (filterCols t) g ≠ []) :
    (data_process_analysis t).1.map Prod.fst =
      [Group.control, Group.low, Group.medium, Group.high] ∧
    (data_process_analysis t).2.map Prod.fst =
      [Group.control, Group.low, Group.medium, Group.high] ∧
    (data_process_analysis t).1.length = 4 ∧
    (data_process_analysis t).2.length = 4 ∧
    (∀ p ∈ (data_process_analysis t).1, p.2.length = (filterCols t).cols.length) ∧
    (∀ p ∈ (data_process_analysis t).2, p.2.length = (filterCols t).cols.length) := by
  refine ⟨?_, ?_, ?_, ?_, ?_, ?_⟩ <;>
    simp [data_process_analysis, groupsList, meanRow, sdSqRow, List.map_map,
      Function.comp]

/-- Witness for C7 at a table where all four groups are inhabited. -/
theorem aggregate_result_shape_witness :
    (data_process_analysis fullTable).1.map Prod.fst =
      [Group.control, Group.low, Group.medium, Group.high] ∧
    (data_process_analysis fullTable).1.length = 4 :=
  ⟨(aggregate_result_shape fullTable (by decide)).1,
   (aggregate_result_shape fullTable (by decide)).2.2.1⟩

/-- Claim C8: when the input file cannot be read, the run returns the
distinct non-zero exit code IO_ERROR, produces no aggregate output at all,
and emits a stderr diagnostic containing the file path; a successful run
returns SUCCESS = 0 and the aggregation of the table that was read. -/
theorem io_failure_handling (fs : FileSys) (path : String) :
    (fs path = none →
      (main fs path).1 = IO_ERROR ∧ IO_ERROR ≠ SUCCESS ∧
      (main fs path).2.1 = none ∧
      ∃ d, (main fs path).2.2 = some d ∧ substrIn path d = true) ∧
    (∀ tb, fs path = some tb →
      (main fs path).1 = SUCCESS ∧ SUCCESS = 0 ∧
      (main fs path).2.1 = some (data_process_analysis tb)) := by
  constructor
  · intro h
    refine ⟨?_, ?_, ?_, ?_⟩ <;>
      simp [main, parse_cmdline, h, SUCCESS, IO_ERROR]
    exact substrIn_append_self _ _
  · intro tb h
    refine ⟨?_, rfl, ?_⟩ <;> simp [main, parse_cmdline, h, SUCCESS]

/-- Witness for C8: a missing ghost.xlsx aborts with IO_ERROR and a
diagnostic naming it, and a readable file is processed with exit code 0. -/
theorem io_failure_handling_witness :
    ((main (fun _ => none) "ghost.xlsx").1 = IO_ERROR ∧ IO_ERROR ≠ SUCCESS ∧
      (main (fun _ => none) "ghost.xlsx").2.1 = none ∧
      ∃ d, (main (fun _ => none) "ghost.xlsx").2.2 = some d ∧
        substrIn "ghost.xlsx" d = true) ∧
    ((main (fun _ => some scenarioTable) "OTU_data.xlsx").1 = SUCCESS ∧
      SUCCESS = 0 ∧
      (main (fun _ => some scenarioTable) "OTU_data.xlsx").2.1 =
        some (data_process_analysis scenarioTable)) :=
  ⟨(io_failure_handling (fun _ => none) "ghost.xlsx").1 rfl,
   (io_failure_handling (fun _ => some scenarioTable) "OTU_data.xlsx").2
     scenarioTable rfl⟩

/-- Claim C9: the aggregation is deterministic — equal input tables give
equal mean and SD tables — and moreover the per-group reductions are
invariant under any reordering of the selected rows, so the one internal
source of nondeterminism in the code (Python-set iteration order on line
92) cannot change the result. -/
theorem aggregation_deterministic :
    (∀ t t' : Table, t = t' →
      data_process_analysis t = data_process_analysis t') ∧
    (∀ (rs rs' : List Row) (n : Nat), rs.Perm rs' →
      meanRow rs n = meanRow rs' n ∧ sdSqRow rs n = sdSqRow rs' n) :=
  ⟨fun _ _ h => h ▸ rfl, fun _ _ n h => ⟨meanRow_perm h n, sdSqRow_perm h n⟩⟩

/-- Witness for C9 at the scenario table and a two-row swap. -/
theorem aggregation_deterministic_witness :
    data_process_analysis scenarioTable = data_process_analysis scenarioTable ∧
    meanRow [("a", [1]), ("b", [3])] 1 = meanRow [("b", [3]), ("a", [1])] 1 :=
  ⟨aggregation_deterministic.1 scenarioTable scenarioTable rfl,
   (aggregation_deterministic.2 [("a", [1]), ("b", [3])]
      [("b", [3]), ("a", [1])] 1 (by decide)).1⟩

/-- Claim C10: because the label loop appends once per cell, a filtered
table with no columns yields empty group sets regardless of the labels,
while with at least one surviving column a row's membership in a group
depends only on its label (via `classify`), not on any numeric cell value. -/
theorem membership_counted_per_cell (t : Table) (g : Group) :
    ((filterCols t).cols = [] → groupVals (filterCols t) g = []) ∧
    ((filterCols t).cols ≠ [] → ∀ lbl,
      (lbl ∈ groupVals (filterCols t) g ↔
        classify lbl = some g ∧ lbl ∈ t.rows.map Prod.fst)) := by
  constructor
  · intro h
    simp [groupVals, h]
  · intro h lbl
    rw [mem_groupVals, filterCols_labels]
    simp [h]

/-- Witness for C10: with every column all-zero the control set is empty,
and on the scenario table control_1's membership follows from its label. -/
theorem membership_counted_per_cell_witness :
    groupVals (filterCols noColsTable) Group.control = [] ∧
    "control_1" ∈ groupVals (filterCols scenarioTable) Group.control :=
  ⟨(membership_counted_per_cell noColsTable Group.control).1 (by decide),
   ((membership_counted_per_cell scenarioTable Group.control).2
      (by decide) "control_1").mpr (by decide)⟩

end OtuProj
